import Mathlib

/-!
Shallow embedding of the world-radio single-page application
(src/src/App.tsx) and proofs about its observable behaviour.

The component state (`useState` hooks), the search filter
(`filteredStations`), the playback controller (`handlePlayStation`),
and the two fetch handlers (`fetchStations`, `fetchWeather`) are
translated into pure Lean definitions.  Side effects on the audio
element, network requests and `console.error` calls are recorded in an
append-only effect log carried inside the state.
-/

/-- A radio station record, `interface RadioStation` in App.tsx.
Coordinates are modelled as rationals. -/
structure RadioStation where
  id : String
  name : String
  country : String
  url : String
  favicon : String
  geo_lat : Rat
  geo_long : Rat
  city : String
  deriving DecidableEq, Repr

/-- The weather snapshot, `interface WeatherData` in App.tsx. -/
structure WeatherData where
  temperature : Int
  description : String
  icon : String
  deriving DecidableEq, Repr

/-- The relevant part of a successful weather-service response:
`main.temp`, and `weather[0].description` / `weather[0].icon`. -/
structure WeatherResponse where
  main_temp : Rat
  description : String
  icon : String
  deriving DecidableEq, Repr

/-- `String.prototype.toLowerCase`, modelled characterwise on the
character list of the string. -/
def jsToLower (s : List Char) : List Char := s.map Char.toLower

/-- Helper for substring containment: `beginsWith s pat` is true when
`pat` occurs at the very start of `s`. -/
def beginsWith : List Char → List Char → Bool
  | _, [] => true
  | [], _ :: _ => false
  | a :: s, b :: pat => a == b && beginsWith s pat

/-- `String.prototype.includes`: `pat` occurs somewhere in `s` as a
contiguous substring (the empty pattern always occurs). -/
def jsIncludes : List Char → List Char → Bool
  | [], pat => pat.isEmpty
  | a :: s, pat => beginsWith (a :: s) pat || jsIncludes s pat

/-- The per-station predicate of `filteredStations` in App.tsx: the
query occurs case-insensitively in the station name, country or city. -/
def stationMatches (query : String) (st : RadioStation) : Bool :=
  jsIncludes (jsToLower st.name.data) (jsToLower query.data) ||
  jsIncludes (jsToLower st.country.data) (jsToLower query.data) ||
  jsIncludes (jsToLower st.city.data) (jsToLower query.data)

/-- `filteredStations` in App.tsx: the derived, filtered view of the
station collection. -/
def filteredStations (stations : List RadioStation) (query : String) :
    List RadioStation :=
  stations.filter (stationMatches query)

/-- Spec-side notion used by the search-filter claim: `q` is a
case-insensitive substring of `s`. -/
def CaseInsensitiveSubstring (q s : String) : Prop :=
  jsToLower q.data <:+: jsToLower s.data

instance (q s : String) : Decidable (CaseInsensitiveSubstring q s) :=
  List.decidableInfix _ _

/-- Observable side effects of the component, recorded in order. -/
inductive Effect where
  | stationsRequest
  | weatherRequest (city : String)
  | audioPause
  | audioSetSrc (url : String)
  | audioPlay
  | logError (which : String)
  deriving DecidableEq, Repr

/-- The component state: the eight `useState` hooks of `App`, the
observable state of the single `Audio` element, and the effect log. -/
structure AppState where
  stations : List RadioStation
  searchQuery : String
  loading : Bool
  currentStation : Option RadioStation
  isPlaying : Bool
  weatherData : Option WeatherData
  audioSrc : Option String
  audioPaused : Bool
  mapCenter : Rat × Rat
  effects : List Effect
  deriving DecidableEq, Repr

/-- The state right after mount: the initial `useState` values, a
fresh paused `Audio` element, map center `[20, 0]`, and the single
station-directory request issued by the mount effect. -/
def initState : AppState where
  stations := []
  searchQuery := ""
  loading := true
  currentStation := none
  isPlaying := false
  weatherData := none
  audioSrc := none
  audioPaused := true
  mapCenter := (20, 0)
  effects := [Effect.stationsRequest]

/-- `handlePlayStation` in App.tsx.  If the clicked station has the id
of the current station, playback is toggled; otherwise the audio is
paused, pointed at the new stream, played, the station becomes
current, and the map recenters.  Setting a new current station fires
the `useEffect` on `currentStation`, which issues a weather request
for the new station's city. -/
def handlePlayStation (st : AppState) (station : RadioStation) : AppState :=
  if st.currentStation.map RadioStation.id = some station.id then
    if st.isPlaying then
      { st with audioPaused := true, isPlaying := false,
                effects := st.effects ++ [Effect.audioPause] }
    else
      { st with audioPaused := false, isPlaying := true,
                effects := st.effects ++ [Effect.audioPlay] }
  else
    { st with
      audioSrc := some station.url
      audioPaused := false
      currentStation := some station
      isPlaying := true
      mapCenter := (station.geo_lat, station.geo_long)
      effects := st.effects ++
        [Effect.audioPause, Effect.audioSetSrc station.url, Effect.audioPlay,
         Effect.weatherRequest station.city] }

/-- `Math.round`, JavaScript semantics: half-way values round up. -/
def jsRound (x : Rat) : Int := ⌊x + 1/2⌋

/-- The success continuation of `fetchWeather`: replace the weather
snapshot wholesale with rounded temperature, description and icon. -/
def applyWeatherSuccess (st : AppState) (r : WeatherResponse) : AppState :=
  { st with weatherData := some ⟨jsRound r.main_temp, r.description, r.icon⟩ }

/-- The catch branch of `fetchWeather`: only logs the error. -/
def applyWeatherFailure (st : AppState) : AppState :=
  { st with effects := st.effects ++ [Effect.logError "weather"] }

/-- The success continuation of `fetchStations`: replace the station
collection; if non-empty, recenter the map on the first station; the
`finally` clause clears the loading flag. -/
def applyStationsSuccess (st : AppState) (resp : List RadioStation) : AppState :=
  let st1 := { st with stations := resp }
  let st2 := match resp with
    | [] => st1
    | r :: _ => { st1 with mapCenter := (r.geo_lat, r.geo_long) }
  { st2 with loading := false }

/-- The catch branch of `fetchStations`: log the error; the `finally`
clause still clears the loading flag. -/
def applyStationsFailure (st : AppState) : AppState :=
  { st with loading := false,
            effects := st.effects ++ [Effect.logError "stations"] }

/-- The discrete events the component reacts to after mount. -/
inductive Event where
  | select (s : RadioStation)
  | stationsOk (resp : List RadioStation)
  | stationsErr
  | weatherOk (r : WeatherResponse)
  | weatherErr
  deriving Repr

/-- One event-driven state transition. -/
def stepEv (st : AppState) (e : Event) : AppState :=
  match e with
  | Event.select s => handlePlayStation st s
  | Event.stationsOk resp => applyStationsSuccess st resp
  | Event.stationsErr => applyStationsFailure st
  | Event.weatherOk r => applyWeatherSuccess st r
  | Event.weatherErr => applyWeatherFailure st

/-- Run a sequence of events from the post-mount state. -/
def run (es : List Event) : AppState := es.foldl stepEv initState

/-- The cities of all weather requests issued so far, in order. -/
def weatherReqs : List Effect → List String
  | [] => []
  | Effect.weatherRequest c :: es => c :: weatherReqs es
  | _ :: es => weatherReqs es

/-- How many station-directory requests have been issued. -/
def stationsReqCount : List Effect → Nat
  | [] => 0
  | Effect.stationsRequest :: es => stationsReqCount es + 1
  | _ :: es => stationsReqCount es

/-- The city of the current station, when one is set. -/
def currentCity (st : AppState) : Option String :=
  st.currentStation.map RadioStation.city

/-- Sample station used in concrete witnesses. -/
def stParis : RadioStation :=
  ⟨"1", "Jazz FM", "France", "http://jazz.example/stream", "", 48, 2, "Paris"⟩

/-- A second sample station with a different id but the same city. -/
def stParis2 : RadioStation :=
  ⟨"2", "Chanson FM", "France", "http://chanson.example/stream", "", 48, 2, "Paris"⟩

/- ### Helper lemmas about substring matching -/

theorem beginsWith_iff (s p : List Char) :
    beginsWith s p = true ↔ p <+: s := by
  induction p generalizing s with
  | nil =>
    cases s <;> exact ⟨fun _ => List.nil_prefix, fun _ => rfl⟩
  | cons b bs ih =>
    cases s with
    | nil =>
      refine ⟨fun h => absurd h (by rw [beginsWith]; exact Bool.false_ne_true),
        fun h => absurd (List.prefix_nil.mp h) (List.cons_ne_nil _ _)⟩
    | cons a as =>
      rw [beginsWith, Bool.and_eq_true, beq_iff_eq, ih, List.cons_prefix_cons,
        eq_comm]

theorem jsIncludes_iff (s p : List Char) :
    jsIncludes s p = true ↔ p <:+: s := by
  induction s with
  | nil =>
    rw [jsIncludes, List.isEmpty_iff]
    constructor
    · rintro rfl; exact List.infix_refl _
    · intro h; exact List.eq_nil_of_infix_nil h
  | cons a as ih =>
    rw [jsIncludes, Bool.or_eq_true, beginsWith_iff, ih, List.infix_cons_iff]

theorem jsIncludes_nil (s : List Char) : jsIncludes s [] = true := by
  cases s <;> simp [jsIncludes, beginsWith]

theorem stationMatches_iff (q : String) (st : RadioStation) :
    stationMatches q st = true ↔
      (CaseInsensitiveSubstring q st.name ∨
       CaseInsensitiveSubstring q st.country ∨
       CaseInsensitiveSubstring q st.city) := by
  simp [stationMatches, Bool.or_eq_true, jsIncludes_iff,
    CaseInsensitiveSubstring, or_assoc]

/-- Claim C1: the filtered view contains exactly those stations whose
name, country or city contains the query as a case-insensitive
substring, in the original order, and the empty query returns the
collection unchanged. -/
theorem c1_filtered_stations_spec (S : List RadioStation) (q : String) :
    filteredStations S q =
      S.filter (fun st => decide (CaseInsensitiveSubstring q st.name ∨
        CaseInsensitiveSubstring q st.country ∨
        CaseInsensitiveSubstring q st.city)) ∧
    (filteredStations S q).Sublist S ∧
    filteredStations S "" = S := by
  refine ⟨?_, List.filter_sublist _, ?_⟩
  · apply List.filter_congr
    intro st _
    rw [Bool.eq_iff_iff, decide_eq_true_eq, stationMatches_iff]
  · apply List.filter_eq_self.mpr
    intro st _
    simp [stationMatches, jsToLower, jsIncludes_nil]

/- ### Playback controller -/

/-- Claim C2: selecting a station whose id differs from the current
station's id (or when no station is current) pauses the audio, points
it at the new station's stream URL, starts playback, makes the station
current and playing, and moves the map center to its coordinates. -/
theorem c2_select_new_station (st : AppState) (s : RadioStation)
    (h : st.currentStation.map RadioStation.id ≠ some s.id) :
    (handlePlayStation st s).currentStation = some s ∧
    (handlePlayStation st s).isPlaying = true ∧
    (handlePlayStation st s).audioSrc = some s.url ∧
    (handlePlayStation st s).audioPaused = false ∧
    (handlePlayStation st s).mapCenter = (s.geo_lat, s.geo_long) ∧
    (handlePlayStation st s).effects = st.effects ++
      [Effect.audioPause, Effect.audioSetSrc s.url, Effect.audioPlay,
       Effect.weatherRequest s.city] := by
  simp [handlePlayStation, h]

theorem c2_witness :
    initState.currentStation.map RadioStation.id ≠ some stParis.id ∧
    ((handlePlayStation initState stParis).currentStation = some stParis ∧
     (handlePlayStation initState stParis).isPlaying = true ∧
     (handlePlayStation initState stParis).audioSrc = some stParis.url ∧
     (handlePlayStation initState stParis).audioPaused = false ∧
     (handlePlayStation initState stParis).mapCenter =
       (stParis.geo_lat, stParis.geo_long) ∧
     (handlePlayStation initState stParis).effects = initState.effects ++
       [Effect.audioPause, Effect.audioSetSrc stParis.url, Effect.audioPlay,
        Effect.weatherRequest stParis.city]) :=
  ⟨by decide, c2_select_new_station initState stParis (by decide)⟩

/-- Claim C3: selecting the current station twice returns the playing
flag to its original value; each single call toggles the flag (pausing
the audio when playing, resuming it when paused) while leaving the
current station and the audio source untouched and loading no new
stream. -/
theorem c3_toggle_same_station (st : AppState) (s : RadioStation)
    (h : st.currentStation.map RadioStation.id = some s.id) :
    (handlePlayStation (handlePlayStation st s) s).isPlaying = st.isPlaying ∧
    (handlePlayStation st s).isPlaying = !st.isPlaying ∧
    (handlePlayStation st s).currentStation = st.currentStation ∧
    (handlePlayStation st s).audioSrc = st.audioSrc ∧
    (handlePlayStation st s).audioPaused = st.isPlaying ∧
    (handlePlayStation st s).effects = st.effects ++
      [if st.isPlaying then Effect.audioPause else Effect.audioPlay] := by
  cases hp : st.isPlaying <;> simp [handlePlayStation, h, hp]

theorem c3_witness :
    (run [Event.select stParis]).currentStation.map RadioStation.id =
      some stParis.id ∧
    ((handlePlayStation (handlePlayStation (run [Event.select stParis]) stParis)
        stParis).isPlaying = (run [Event.select stParis]).isPlaying ∧
     (handlePlayStation (run [Event.select stParis]) stParis).isPlaying =
       !(run [Event.select stParis]).isPlaying ∧
     (handlePlayStation (run [Event.select stParis]) stParis).currentStation =
       (run [Event.select stParis]).currentStation ∧
     (handlePlayStation (run [Event.select stParis]) stParis).audioSrc =
       (run [Event.select stParis]).audioSrc ∧
     (handlePlayStation (run [Event.select stParis]) stParis).audioPaused =
       (run [Event.select stParis]).isPlaying ∧
     (handlePlayStation (run [Event.select stParis]) stParis).effects =
       (run [Event.select stParis]).effects ++
         [if (run [Event.select stParis]).isPlaying then Effect.audioPause
          else Effect.audioPlay]) :=
  ⟨by decide, c3_toggle_same_station (run [Event.select stParis]) stParis (by decide)⟩

/- ### Weather triggering -/

theorem weatherReqs_append (a b : List Effect) :
    weatherReqs (a ++ b) = weatherReqs a ++ weatherReqs b := by
  induction a with
  | nil => rfl
  | cons e es ih => cases e <;> simp [weatherReqs, ih]

theorem stationsReqCount_append (a b : List Effect) :
    stationsReqCount (a ++ b) = stationsReqCount a + stationsReqCount b := by
  induction a with
  | nil => simp [stationsReqCount]
  | cons e es ih =>
    cases e <;> simp [stationsReqCount, ih]
    omega

/-- Claim C4 fails on the code: the weather effect is keyed on the
current station, not on its city.  Selecting a second station in the
same city leaves the current city unchanged yet issues a new weather
request. -/
theorem c4_counterexample :
    currentCity (run [Event.select stParis, Event.select stParis2]) =
      currentCity (run [Event.select stParis]) ∧
    weatherReqs (run [Event.select stParis, Event.select stParis2]).effects =
      weatherReqs (run [Event.select stParis]).effects ++ ["Paris"] := by
  decide

/-- Claim C4 (amended): a weather request is issued exactly when a
station whose id differs from the current station's id is selected
(including the first selection); re-selecting the already-current
station issues no new weather request and leaves the current station
unchanged. -/
theorem c4_weather_on_station_change (st : AppState) (s : RadioStation) :
    (st.currentStation.map RadioStation.id = some s.id →
      weatherReqs (handlePlayStation st s).effects = weatherReqs st.effects ∧
      (handlePlayStation st s).currentStation = st.currentStation) ∧
    (st.currentStation.map RadioStation.id ≠ some s.id →
      weatherReqs (handlePlayStation st s).effects =
        weatherReqs st.effects ++ [s.city]) := by
  constructor
  · intro h
    cases hp : st.isPlaying <;>
      simp [handlePlayStation, h, hp, weatherReqs_append, weatherReqs]
  · intro h
    simp [handlePlayStation, h, weatherReqs_append, weatherReqs]

theorem c4_amended_witness :
    initState.currentStation.map RadioStation.id ≠ some stParis.id ∧
    weatherReqs (handlePlayStation initState stParis).effects =
      weatherReqs initState.effects ++ [stParis.city] :=
  ⟨by decide, (c4_weather_on_station_change initState stParis).2 (by decide)⟩

/- ### Load failure and success -/

theorem stepEv_stationsReqCount (st : AppState) (e : Event) :
    stationsReqCount (stepEv st e).effects = stationsReqCount st.effects := by
  cases e with
  | select s =>
    by_cases h : st.currentStation.map RadioStation.id = some s.id
    · cases hp : st.isPlaying <;>
        simp [stepEv, handlePlayStation, h, hp, stationsReqCount_append,
          stationsReqCount]
    · simp [stepEv, handlePlayStation, h, stationsReqCount_append,
        stationsReqCount]
  | stationsOk resp =>
    cases resp <;> simp [stepEv, applyStationsSuccess]
  | stationsErr =>
    simp [stepEv, applyStationsFailure, stationsReqCount_append,
      stationsReqCount]
  | weatherOk r => rfl
  | weatherErr =>
    simp [stepEv, applyWeatherFailure, stationsReqCount_append,
      stationsReqCount]

theorem foldl_stationsReqCount (es : List Event) (st : AppState) :
    stationsReqCount ((es.foldl stepEv st).effects) =
      stationsReqCount st.effects := by
  induction es generalizing st with
  | nil => rfl
  | cons e es ih => rw [List.foldl_cons, ih, stepEv_stationsReqCount]

/-- Claim C5: on station-load failure the error is logged, the station
collection is unchanged (hence still empty after the initial load
fails), the loading flag is cleared, and no retry is ever issued: the
station-directory request count stays at the single mount request over
every event sequence. -/
theorem c5_station_load_failure :
    (∀ st : AppState,
      (applyStationsFailure st).loading = false ∧
      (applyStationsFailure st).stations = st.stations ∧
      (applyStationsFailure st).effects =
        st.effects ++ [Effect.logError "stations"]) ∧
    (run [Event.stationsErr]).stations = [] ∧
    (run [Event.stationsErr]).loading = false ∧
    (∀ q : String, filteredStations (run [Event.stationsErr]).stations q = []) ∧
    (∀ es : List Event, stationsReqCount (run es).effects = 1) := by
  refine ⟨fun st => ⟨rfl, rfl, rfl⟩, rfl, rfl, fun q => rfl, fun es => ?_⟩
  rw [run, foldl_stationsReqCount]
  rfl

/-- Claim C6: a failed weather request only logs the error; the stored
weather snapshot and every other piece of component state are left
unchanged. -/
theorem c6_weather_failure_keeps_snapshot (st : AppState) :
    (stepEv st Event.weatherErr).weatherData = st.weatherData ∧
    (stepEv st Event.weatherErr).effects =
      st.effects ++ [Effect.logError "weather"] ∧
    (stepEv st Event.weatherErr).stations = st.stations ∧
    (stepEv st Event.weatherErr).currentStation = st.currentStation ∧
    (stepEv st Event.weatherErr).isPlaying = st.isPlaying ∧
    (stepEv st Event.weatherErr).loading = st.loading ∧
    (stepEv st Event.weatherErr).mapCenter = st.mapCenter ∧
    (stepEv st Event.weatherErr).audioSrc = st.audioSrc ∧
    (stepEv st Event.weatherErr).audioPaused = st.audioPaused ∧
    (stepEv st Event.weatherErr).searchQuery = st.searchQuery :=
  ⟨rfl, rfl, rfl, rfl, rfl, rfl, rfl, rfl, rfl, rfl⟩

/-- Claim C7: a successful station load with at least one result sets
the map center to the first station's coordinates (and stores the
response, clearing the loading flag); a load with zero results leaves
the map center at its previous value, which from the initial state is
the default. -/
theorem c7_map_center_first_station (st : AppState) (r : RadioStation)
    (rest : List RadioStation) :
    (applyStationsSuccess st (r :: rest)).mapCenter = (r.geo_lat, r.geo_long) ∧
    (applyStationsSuccess st (r :: rest)).stations = r :: rest ∧
    (applyStationsSuccess st (r :: rest)).loading = false ∧
    (applyStationsSuccess st []).mapCenter = st.mapCenter ∧
    (run [Event.stationsOk []]).mapCenter = initState.mapCenter :=
  ⟨rfl, rfl, rfl, rfl, rfl⟩

/- ### Weather snapshot and rounding -/

/-- Claim C8: a successful weather response replaces the snapshot
wholesale with the rounded temperature, description and icon; the
rounded value is within 1/2 of the true temperature, and the concrete
response with temperature 21.6, description "clear sky" and icon "01d"
yields the snapshot with temperature 22. -/
theorem c8_weather_success_snapshot (st : AppState) (r : WeatherResponse) :
    (applyWeatherSuccess st r).weatherData =
      some ⟨jsRound r.main_temp, r.description, r.icon⟩ ∧
    (∀ x : Rat, |x - (jsRound x : Rat)| ≤ 1/2) ∧
    (applyWeatherSuccess st ⟨216/10, "clear sky", "01d"⟩).weatherData =
      some ⟨22, "clear sky", "01d"⟩ := by
  refine ⟨rfl, fun x => ?_, ?_⟩
  · rw [abs_le]
    have h1 : ((jsRound x : Int) : Rat) ≤ x + 1/2 := Int.floor_le _
    have h2 : x + 1/2 - 1 < ((jsRound x : Int) : Rat) := Int.sub_one_lt_floor _
    constructor <;> linarith
  · have : jsRound (216/10) = 22 := by
      rw [jsRound, Int.floor_eq_iff]
      constructor <;> norm_num
    simp [applyWeatherSuccess, this]

/- ### Playback invariant -/

/-- The invariant of claim C9: the playing flag forces a current
station to be set. -/
def playingInv (st : AppState) : Prop :=
  st.isPlaying = true → st.currentStation.isSome = true

theorem applyStationsSuccess_playback (st : AppState)
    (resp : List RadioStation) :
    (applyStationsSuccess st resp).currentStation = st.currentStation ∧
    (applyStationsSuccess st resp).isPlaying = st.isPlaying := by
  cases resp <;> exact ⟨rfl, rfl⟩

theorem stepEv_playingInv (st : AppState) (e : Event) (h : playingInv st) :
    playingInv (stepEv st e) := by
  cases e with
  | select s =>
    by_cases hid : st.currentStation.map RadioStation.id = some s.id
    · intro _
      have hsome : st.currentStation.isSome = true := by
        cases hcs : st.currentStation
        · rw [hcs] at hid; simp at hid
        · rfl
      cases hp : st.isPlaying <;>
        simpa [stepEv, handlePlayStation, hid, hp] using hsome
    · intro _
      simp [stepEv, handlePlayStation, hid]
  | stationsOk resp =>
    intro hp
    have h1 := applyStationsSuccess_playback st resp
    simp only [stepEv] at hp ⊢
    rw [h1.2] at hp
    rw [h1.1]
    exact h hp
  | stationsErr => exact h
  | weatherOk r => exact h
  | weatherErr => exact h

theorem foldl_playingInv (es : List Event) (st : AppState)
    (h : playingInv st) : playingInv (es.foldl stepEv st) := by
  induction es generalizing st with
  | nil => exact h
  | cons e es ih => exact ih _ (stepEv_playingInv st e h)

/-- Claim C9: in every state reachable from the initial state by
selections and load completions, the playing flag being true implies
that a current station is set. -/
theorem c9_playing_implies_current (es : List Event)
    (h : (run es).isPlaying = true) :
    (run es).currentStation.isSome = true :=
  foldl_playingInv es initState (by intro hc; simp [initState] at hc) h

theorem c9_witness :
    (run [Event.select stParis]).isPlaying = true ∧
    (run [Event.select stParis]).currentStation.isSome = true :=
  ⟨by decide, c9_playing_implies_current [Event.select stParis] (by decide)⟩

/- ### Map center default -/

/-- Claim C10: the map center starts at the coordinate pair (20, 0),
and keeps that value when the station load fails or returns zero
results; a failed load never modifies the map center. -/
theorem c10_map_center_default :
    initState.mapCenter = ((20 : Rat), (0 : Rat)) ∧
    (∀ st : AppState, (applyStationsFailure st).mapCenter = st.mapCenter) ∧
    (run [Event.stationsErr]).mapCenter = ((20 : Rat), (0 : Rat)) ∧
    (run [Event.stationsOk []]).mapCenter = ((20 : Rat), (0 : Rat)) :=
  ⟨rfl, fun _ => rfl, rfl, rfl⟩
